import Mathlib

/-
Verification of the AIVideoGenerator client core: the request builder,
operation poller and result resolver of
src/services/geminiService.ts (generateVideo), the form-level validation of
src/components/VideoGeneratorForm.tsx, and the password-verification endpoint
of src/api/verify-password.ts, shallowly embedded as pure Lean functions.
-/

namespace AIVideoGen

/-- JavaScript truthiness of an optional string: an absent value and the
empty string are falsy, every other string is truthy. -/
def strTruthy : Option String → Bool
  | some s => !s.isEmpty
  | none => false

/-- One input image, as produced by fileToGenerativePart in
src/components/fileUtils: base64 data plus a MIME type. -/
structure ImageInput where
  data : String
  mimeType : String
deriving DecidableEq, Repr

/-- Aspect ratio, modelling the source type with values 16:9 and 9:16. -/
inductive Aspect
  | a169
  | a916
deriving DecidableEq, Repr

/-- One entry of the referenceImages list built in generateVideo:
imageBytes, mimeType and the referenceType tag (always the string ASSET). -/
structure ReferenceImage where
  imageBytes : String
  mimeType : String
  referenceType : String
deriving DecidableEq, Repr

/-- The config object of generateVideo: numberOfVideos, resolution and
aspect ratio. -/
structure VideoConfig where
  numberOfVideos : Nat
  resolution : String
  aspect : Aspect
deriving DecidableEq, Repr

/-- The image-bearing part of a generateVideos request: either the single
primary image field, or the referenceImages list. -/
inductive RequestImages
  | primary (imageBytes : String) (mimeType : String)
  | references (refs : List ReferenceImage)
deriving DecidableEq, Repr

/-- A generateVideos request: model identifier, prompt, image payload and
config, as assembled by generateVideo in src/services/geminiService.ts. -/
structure GenerateVideosRequest where
  model : String
  prompt : String
  imgs : RequestImages
  config : VideoConfig
deriving DecidableEq, Repr

/-- The fast model identifier used on the single-image path. -/
def FAST_MODEL : String := "veo-3.1-fast-generate-preview"

/-- The non-fast model identifier used on the reference-images path. -/
def REF_MODEL : String := "veo-3.1-generate-preview"

/-- The branch condition of generateVideo, line 32 of geminiService.ts:
images.length > 1 selects the reference-images request shape. -/
def multiImageBranch (images : List ImageInput) : Bool :=
  decide (1 < images.length)

/-- Request shaping of generateVideo, lines 32 to 61 of geminiService.ts.
When more than one image is given, every image is mapped in order to a
reference entry tagged ASSET and the non-fast model is used; otherwise the
single image field images[0] is used with the fast model. The images[0]
access is unguarded in the source; an empty list makes it an access to a
non-existent element, modelled here as none. -/
def buildRequest (images : List ImageInput) (prompt : String) (ar : Aspect) :
    Option GenerateVideosRequest :=
  let config : VideoConfig := ⟨1, "720p", ar⟩
  if multiImageBranch images then
    some ⟨REF_MODEL, prompt,
      RequestImages.references
        (images.map fun img => ⟨img.data, img.mimeType, "ASSET"⟩),
      config⟩
  else
    match images.head? with
    | some img => some ⟨FAST_MODEL, prompt,
        RequestImages.primary img.data img.mimeType, config⟩
    | none => none

/-- Whether a built request uses the reference-images shape. -/
def isReferenceShaped (req : GenerateVideosRequest) : Bool :=
  match req.imgs with
  | RequestImages.primary _ _ => false
  | RequestImages.references _ => true

/-- The fixed list of progress messages, lines 4 to 11 of geminiService.ts. -/
def LOADING_MESSAGES : List String :=
  [ "Recalling the details of your memory...",
    "Gathering the echoes of the past...",
    "Focusing on the feeling of the moment...",
    "Weaving motion into your photograph...",
    "Rendering the memory, this can take a moment...",
    "Bringing your memory to life..." ]

/-- The message-index update of the poll loop, line 70 of geminiService.ts:
messageIndex = (messageIndex + 1) % LOADING_MESSAGES.length. -/
def nextMessageIndex (i : Nat) : Nat :=
  (i + 1) % LOADING_MESSAGES.length

/-- The inner video object of a generated-video entry: an optional result
locator uri and an optional filterReason tag. -/
structure Video where
  uri : Option String
  filterReason : Option String
deriving DecidableEq, Repr

/-- One entry of the generatedVideos list of an operation response. -/
structure GeneratedVideo where
  video : Option Video
deriving DecidableEq, Repr

/-- The top-level error object of an operation response, with its optional
message. -/
structure ResponseError where
  message : Option String
deriving DecidableEq, Repr

/-- The response payload of a completed operation: an optional
generatedVideos list and an optional top-level error. -/
structure OperationResponse where
  generatedVideos : Option (List GeneratedVideo)
  error : Option ResponseError
deriving DecidableEq, Repr

/-- The Operation handle threaded through the poll loop: a name, the done
flag and the optional response payload. -/
structure Operation where
  name : String
  done : Bool
  response : Option OperationResponse
deriving DecidableEq, Repr

/-- The outcome of one status re-request during polling: either the new
operation handle, or a thrown transport failure. -/
inductive PollResult
  | ok (op : Operation)
  | fail (err : String)
deriving DecidableEq, Repr

/-- The outcome of the poll loop: completion with the final operation, the
final message index and the number of status re-requests issued; a
propagated transport failure with the number of re-requests issued; or
exhaustion of the supplied trace while still incomplete. -/
inductive PollOutcome
  | completed (op : Operation) (messageIndex : Nat) (pollsUsed : Nat)
  | transportError (err : String) (pollsUsed : Nat)
  | exhausted (messageIndex : Nat)
deriving DecidableEq, Repr

/-- The while loop of generateVideo, lines 64 to 81 of geminiService.ts,
over a trace of status re-request outcomes. While the operation is not
done: advance the message index, then issue the status re-request; if it
throws, the failure is rethrown unchanged and polling stops. -/
def pollLoop (op : Operation) (messageIndex : Nat) :
    List PollResult → PollOutcome
  | [] =>
    if op.done then PollOutcome.completed op messageIndex 0
    else PollOutcome.exhausted messageIndex
  | r :: rest =>
    if op.done then PollOutcome.completed op messageIndex 0
    else
      match r with
      | PollResult.fail e => PollOutcome.transportError e 1
      | PollResult.ok opNext =>
        match pollLoop opNext (nextMessageIndex messageIndex) rest with
        | PollOutcome.completed o i n => PollOutcome.completed o i (n + 1)
        | PollOutcome.transportError e n => PollOutcome.transportError e (n + 1)
        | PollOutcome.exhausted i => PollOutcome.exhausted i

/-- The first generated-video entry of a response,
response?.generatedVideos?.[0] on line 84 of geminiService.ts. -/
def firstGeneratedVideo (response : Option OperationResponse) :
    Option GeneratedVideo :=
  response.bind fun r => r.generatedVideos.bind fun l => l.head?

/-- The result locator of an optional entry, generatedVideo?.video?.uri. -/
def videoUriOf (gv : Option GeneratedVideo) : Option String :=
  gv.bind fun g => g.video.bind fun v => v.uri

/-- The safety-filter tag of an optional entry,
generatedVideo?.video?.filterReason. -/
def filterReasonOf (gv : Option GeneratedVideo) : Option String :=
  gv.bind fun g => g.video.bind fun v => v.filterReason

/-- The top-level error message of a response, response?.error?.message. -/
def topErrorMessage (response : Option OperationResponse) : Option String :=
  response.bind fun r => r.error.bind fun e => e.message

/-- The emptiness test of line 103 of geminiService.ts:
!response?.generatedVideos || response.generatedVideos.length === 0. -/
def generatedVideosMissing (response : Option OperationResponse) : Bool :=
  match response.bind fun r => r.generatedVideos with
  | none => true
  | some l => l.isEmpty

/-- The error message of the empty-result classification. -/
def EMPTY_RESULT_MSG : String :=
  "Video generation completed, but no video was returned. The content may have been filtered by safety policies. Try a different prompt or image."

/-- The error message of the malformed-response classification. -/
def MALFORMED_MSG : String :=
  "Video generation completed, but no download link was found. Check the browser console for details."

/-- The classified outcome of result resolution: success with the locator,
or one of the four failure categories with the thrown error message. -/
inductive ResolveOutcome
  | success (uri : String)
  | safetyFiltered (msg : String)
  | upstreamError (msg : String)
  | emptyResult (msg : String)
  | malformedResponse (msg : String)
deriving DecidableEq, Repr

/-- Result resolution of a completed operation, lines 83 to 109 of
geminiService.ts: a truthy download link is success; otherwise a truthy
filterReason on the first entry throws the safety-filter error; otherwise
a truthy top-level error message throws the upstream error; otherwise an
absent or empty generatedVideos list throws the empty-result error;
otherwise the malformed-response error is thrown. -/
def resolveOperation (op : Operation) : ResolveOutcome :=
  let response := op.response
  let generatedVideo := firstGeneratedVideo response
  let downloadLink := videoUriOf generatedVideo
  if strTruthy downloadLink then
    ResolveOutcome.success (downloadLink.getD "")
  else
    let filterReason := filterReasonOf generatedVideo
    if strTruthy filterReason then
      ResolveOutcome.safetyFiltered
        ("Video was filtered by safety policy: " ++ filterReason.getD ""
          ++ ". Try a different prompt.")
    else
      let errorMessage := topErrorMessage response
      if strTruthy errorMessage then
        ResolveOutcome.upstreamError
          ("Video generation failed: " ++ errorMessage.getD "")
      else if generatedVideosMissing response then
        ResolveOutcome.emptyResult EMPTY_RESULT_MSG
      else
        ResolveOutcome.malformedResponse MALFORMED_MSG

/-- The response of the result fetch: HTTP success flag, status text, and
the local object URL the body converts to when successful. -/
structure FetchResponse where
  ok : Bool
  statusText : String
  blobUrl : String
deriving DecidableEq, Repr

/-- The overall outcome of the tail of generateVideo: a returned local
video URL, a thrown generation-failure classification, or the thrown
download-failure error. -/
inductive GenerateResult
  | videoUrl (url : String)
  | genFailure (e : ResolveOutcome)
  | downloadFailure (msg : String)
deriving DecidableEq, Repr

/-- Lines 83 to 118 of geminiService.ts after the poll loop: resolve the
completed operation; on success fetch the locator with the key appended,
throwing the download-failure error when the response is not ok and
otherwise converting the body to a local object URL. The second component
counts the fetches issued. -/
def finishGenerate (op : Operation) (apiKey : String)
    (fetchResp : String → FetchResponse) : GenerateResult × Nat :=
  match resolveOperation op with
  | ResolveOutcome.success link =>
    let resp := fetchResp (link ++ "&key=" ++ apiKey)
    if resp.ok then (GenerateResult.videoUrl resp.blobUrl, 1)
    else
      (GenerateResult.downloadFailure
        ("Failed to download video: " ++ resp.statusText), 1)
  | e => (GenerateResult.genFailure e, 0)

/-- Numeric tag of a resolution outcome, in the order of the five-way
classification. -/
def outcomeTag : ResolveOutcome → Nat
  | ResolveOutcome.success _ => 0
  | ResolveOutcome.safetyFiltered _ => 1
  | ResolveOutcome.upstreamError _ => 2
  | ResolveOutcome.emptyResult _ => 3
  | ResolveOutcome.malformedResponse _ => 4

/-- The ordered five-way classification as the spec states it: the first
matching case of locator, filter tag, top-level error, empty list wins,
with malformed response as the default. -/
def specFiveWayTag (op : Operation) : Nat :=
  if strTruthy (videoUriOf (firstGeneratedVideo op.response)) then 0
  else if strTruthy (filterReasonOf (firstGeneratedVideo op.response)) then 1
  else if strTruthy (topErrorMessage op.response) then 2
  else if generatedVideosMissing op.response then 3
  else 4

/-- A selected file in the form: name, byte size, and the ImageInput it
converts to via fileToGenerativePart. -/
structure FormFile where
  fname : String
  size : Nat
  part : ImageInput
deriving DecidableEq, Repr

/-- The form state of VideoGeneratorForm relevant to validation: the
selected files and the error banner. -/
structure FormState where
  imageFiles : List FormFile
  error : Option String
deriving DecidableEq, Repr

/-- The initial form state: no files selected, no error. -/
def initialFormState : FormState := ⟨[], none⟩

/-- The per-file size limit of handleFileChange: 10MB. -/
def MAX_FILE_SIZE : Nat := 10 * 1024 * 1024

/-- handleFileChange of VideoGeneratorForm.tsx, lines 27 to 57: ignore an
empty selection; refuse a selection that would bring the count above 3,
leaving the files unchanged; refuse a selection holding an oversized file;
otherwise append the new files in order and clear the error. -/
def handleFileChange (s : FormState) (files : List FormFile) : FormState :=
  if files.length = 0 then s
  else if 3 < s.imageFiles.length + files.length then
    { s with error := some "You can upload a maximum of 3 images." }
  else
    match files.find? (fun f => decide (MAX_FILE_SIZE < f.size)) with
    | some f =>
      { s with error := some ("File \"" ++ f.fname ++ "\" exceeds 10MB limit.") }
    | none => { imageFiles := s.imageFiles ++ files, error := none }

/-- handleRemoveImage of VideoGeneratorForm.tsx: drop the file at the
given index. -/
def handleRemoveImage (s : FormState) (i : Nat) : FormState :=
  { s with imageFiles := s.imageFiles.eraseIdx i }

/-- handleSubmit of VideoGeneratorForm.tsx, lines 89 to 105: with no file
or an empty prompt, set the validation error and do not call onGenerate;
otherwise call onGenerate with the converted images, the prompt and the
aspect ratio. The first component is the onGenerate argument when the call
happens. -/
def handleSubmit (s : FormState) (prompt : String) (ar : Aspect) :
    Option (List ImageInput × String × Aspect) × FormState :=
  if s.imageFiles.length = 0 ∨ prompt.isEmpty = true then
    (none, { s with error := some "Please provide at least one image and a prompt." })
  else
    (some (s.imageFiles.map (fun f => f.part), prompt, ar),
     { s with error := none })

/-- Form states reachable from the initial state by the form handlers. -/
inductive Reachable : FormState → Prop
  | init : Reachable initialFormState
  | add {s : FormState} (files : List FormFile) :
      Reachable s → Reachable (handleFileChange s files)
  | remove {s : FormState} (i : Nat) :
      Reachable s → Reachable (handleRemoveImage s i)
  | submit {s : FormState} (prompt : String) (ar : Aspect) :
      Reachable s → Reachable (handleSubmit s prompt ar).2

/-- A JSON body value for the password field: a string, or a value of any
other type carrying its JavaScript truthiness. -/
inductive BodyValue
  | str (s : String)
  | nonString (truthy : Bool)
deriving DecidableEq, Repr

/-- The request seen by the verify-password handler: HTTP method and the
optional password field of the body. -/
structure VercelRequest where
  method : String
  password : Option BodyValue
deriving DecidableEq, Repr

/-- The server environment of the handler: the two environment variables,
absent or a string. -/
structure Env where
  ACCESS_PASSWORD : Option String
  GEMINI_API_KEY : Option String
deriving DecidableEq, Repr

/-- A handler response body: an error message or the returned API key. -/
inductive ResBody
  | err (msg : String)
  | key (apiKey : String)
deriving DecidableEq, Repr

/-- The configuration-error message of the handler. -/
def CONFIG_ERR_MSG : String :=
  "Server is not configured. Set ACCESS_PASSWORD and GEMINI_API_KEY in Vercel environment variables."

/-- The handler of src/api/verify-password.ts: non-POST is 405; a falsy or
non-string password is 400; then a falsy ACCESS_PASSWORD or GEMINI_API_KEY
is 500; then a password differing from ACCESS_PASSWORD is 401; otherwise
200 with the API key. Pure function of environment and request. -/
def handler (env : Env) (req : VercelRequest) : Nat × ResBody :=
  if req.method ≠ "POST" then (405, ResBody.err "Method not allowed")
  else
    match req.password with
    | some (BodyValue.str pw) =>
      if pw.isEmpty then (400, ResBody.err "Password is required")
      else if !(strTruthy env.ACCESS_PASSWORD && strTruthy env.GEMINI_API_KEY) then
        (500, ResBody.err CONFIG_ERR_MSG)
      else if pw ≠ env.ACCESS_PASSWORD.getD "" then
        (401, ResBody.err "Invalid password")
      else (200, ResBody.key (env.GEMINI_API_KEY.getD ""))
    | _ => (400, ResBody.err "Password is required")

/-
Concrete operations and fixtures used by witnesses and counterexamples.
-/

/-- An operation that is still running. -/
def notDoneOp : Operation := ⟨"operations/op1", false, none⟩

/-- A completed operation whose response carries an empty generatedVideos
list and no top-level error. -/
def doneEmptyOp : Operation := ⟨"operations/op1", true, some ⟨some [], none⟩⟩

/-- A completed operation carrying only a top-level error message. -/
def errOp : Operation :=
  ⟨"operations/op2", true, some ⟨none, some ⟨some "quota exceeded"⟩⟩⟩

/-- A completed operation whose first entry carries a filter reason and no
locator. -/
def filteredOp : Operation :=
  ⟨"operations/op3", true,
    some ⟨some [⟨some ⟨none, some "PROHIBITED_CONTENT"⟩⟩], none⟩⟩

/-- A completed operation whose first entry carries a result locator. -/
def successOp : Operation :=
  ⟨"operations/op4", true,
    some ⟨some [⟨some ⟨some "https://video.example/file.mp4", none⟩⟩], none⟩⟩

/-- A sample image. -/
def imgA : ImageInput := ⟨"aaa", "image/png"⟩

/-- Another sample image. -/
def imgB : ImageInput := ⟨"bbb", "image/jpeg"⟩

/-- A small form file. -/
def smallFile : FormFile := ⟨"a.png", 1000, ⟨"aaa", "image/png"⟩⟩

/-
Theorems for the claims.
-/

/-- C1: with exactly 1 image the request uses the primary-image field and
the fast model identifier; with 2 or 3 images every image becomes a
reference entry tagged ASSET, in input order, and the non-fast model is
selected; the shape is determined solely by the branch condition on the
image count, so the two shapes are mutually exclusive. -/
theorem c1_request_shaping (images : List ImageInput) (prompt : String)
    (ar : Aspect) :
    (∀ img, images = [img] →
        buildRequest images prompt ar =
          some ⟨FAST_MODEL, prompt,
            RequestImages.primary img.data img.mimeType, ⟨1, "720p", ar⟩⟩) ∧
    (images.length = 2 ∨ images.length = 3 →
        buildRequest images prompt ar =
          some ⟨REF_MODEL, prompt,
            RequestImages.references
              (images.map fun img => ⟨img.data, img.mimeType, "ASSET"⟩),
            ⟨1, "720p", ar⟩⟩) ∧
    (∀ req, buildRequest images prompt ar = some req →
        isReferenceShaped req = multiImageBranch images) := by
  refine ⟨?_, ?_, ?_⟩
  · intro img h
    subst h
    simp [buildRequest, multiImageBranch]
  · intro h
    have hlen : 1 < images.length := by
      rcases h with h | h <;> omega
    simp [buildRequest, multiImageBranch, hlen]
  · intro req h
    by_cases hm : multiImageBranch images = true
    · simp [buildRequest, hm] at h
      rw [← h, hm]
      rfl
    · have hm' : multiImageBranch images = false := by
        simpa using hm
      cases images with
      | nil => simp [buildRequest, hm'] at h
      | cons a t =>
        have ht : t = [] := by
          cases t with
          | nil => rfl
          | cons b t2 =>
            exfalso
            simp [multiImageBranch] at hm'
        subst ht
        simp [buildRequest, hm'] at h
        rw [← h, hm']
        rfl

/-- Witness for C1 at concrete inputs of length 1 and 2. -/
theorem c1_request_shaping_witness :
    buildRequest [imgA] "p" Aspect.a169 =
      some ⟨FAST_MODEL, "p",
        RequestImages.primary "aaa" "image/png", ⟨1, "720p", Aspect.a169⟩⟩ ∧
    buildRequest [imgA, imgB] "p" Aspect.a169 =
      some ⟨REF_MODEL, "p",
        RequestImages.references
          [⟨"aaa", "image/png", "ASSET"⟩, ⟨"bbb", "image/jpeg", "ASSET"⟩],
        ⟨1, "720p", Aspect.a169⟩⟩ :=
  ⟨(c1_request_shaping [imgA] "p" Aspect.a169).1 imgA rfl,
   (c1_request_shaping [imgA, imgB] "p" Aspect.a169).2.1 (Or.inl rfl)⟩

/-- C10: generateVideo itself never checks the image count. On the empty
list the branch condition images.length greater than 1 is false, so the
single-image branch is taken and the unguarded images[0] access falls on a
non-existent element (modelled as none); the request build succeeds
exactly when the list is non-empty. -/
theorem c10_unguarded_index (prompt : String) (ar : Aspect) :
    multiImageBranch [] = false ∧
    buildRequest [] prompt ar = none ∧
    (∀ images : List ImageInput,
        buildRequest images prompt ar = none ↔ images = []) := by
  refine ⟨rfl, rfl, fun images => ?_⟩
  constructor
  · intro h
    cases images with
    | nil => rfl
    | cons a t =>
      cases t with
      | nil => simp [buildRequest, multiImageBranch] at h
      | cons b t2 => simp [buildRequest, multiImageBranch] at h
  · intro h
    subst h
    rfl

/-- Witness for C10: the build on the empty list at concrete arguments. -/
theorem c10_unguarded_index_witness :
    buildRequest [] "p" Aspect.a169 = none :=
  (c10_unguarded_index "p" Aspect.a169).2.1

/-- Helper: a transport failure after a prefix of successful not-done
status checks stops the loop at once, rethrowing the same error; the tail
of the trace is never consumed. -/
theorem pollLoop_fail_after (pre : List Operation) :
    ∀ (op0 : Operation) (idx : Nat) (e : String) (rest : List PollResult),
      op0.done = false → (∀ o ∈ pre, o.done = false) →
      pollLoop op0 idx (pre.map PollResult.ok ++ PollResult.fail e :: rest) =
        PollOutcome.transportError e (pre.length + 1) := by
  induction pre with
  | nil =>
    intro op0 idx e rest h0 _
    simp [pollLoop, h0]
  | cons o t ih =>
    intro op0 idx e rest h0 hpre
    have ho : o.done = false := hpre o (by simp)
    have ht : ∀ x ∈ t, x.done = false := fun x hx => hpre x (by simp [hx])
    simp only [List.map_cons, List.cons_append, pollLoop, h0, Bool.false_eq_true,
      if_false, List.append_eq]
    rw [ih o (nextMessageIndex idx) e rest ho ht]
    simp [Nat.add_assoc]

/-- Helper: a run of successful not-done status checks followed by a done
operation completes, with the message index advanced once per iteration
modulo the message-list length. -/
theorem pollLoop_ok_completes (pre : List Operation) :
    ∀ (op0 : Operation) (idx : Nat) (opF : Operation),
      op0.done = false → (∀ o ∈ pre, o.done = false) → opF.done = true →
      pollLoop op0 idx (pre.map PollResult.ok ++ [PollResult.ok opF]) =
        PollOutcome.completed opF
          ((idx + (pre.length + 1)) % LOADING_MESSAGES.length)
          (pre.length + 1) := by
  induction pre with
  | nil =>
    intro op0 idx opF h0 _ hF
    simp [pollLoop, h0, hF, nextMessageIndex]
  | cons o t ih =>
    intro op0 idx opF h0 hpre hF
    have ho : o.done = false := hpre o (by simp)
    have ht : ∀ x ∈ t, x.done = false := fun x hx => hpre x (by simp [hx])
    simp only [List.map_cons, List.cons_append, pollLoop, h0, Bool.false_eq_true,
      if_false, List.append_eq]
    rw [ih o (nextMessageIndex idx) opF ho ht hF]
    have hidx : (nextMessageIndex idx + (t.length + 1)) % LOADING_MESSAGES.length
        = (idx + (t.length + 1 + 1)) % LOADING_MESSAGES.length := by
      simp only [nextMessageIndex]
      rw [Nat.mod_add_mod]
      ring_nf
    rw [hidx]
    simp [Nat.add_assoc]

/-- C3 (amended): starting from index 0, after n polling iterations the
progress-message index equals n modulo the message-list length, which is
6; in particular after 7 polls the index is 1, not 0. -/
theorem c3_message_index_cycles (op0 opF : Operation) (pre : List Operation)
    (h0 : op0.done = false) (hpre : ∀ o ∈ pre, o.done = false)
    (hF : opF.done = true) :
    pollLoop op0 0 (pre.map PollResult.ok ++ [PollResult.ok opF]) =
      PollOutcome.completed opF ((pre.length + 1) % LOADING_MESSAGES.length)
        (pre.length + 1) ∧
    LOADING_MESSAGES.length = 6 := by
  constructor
  · have h := pollLoop_ok_completes pre op0 0 opF h0 hpre hF
    simpa using h
  · rfl

/-- Witness for C3 at a concrete one-iteration run. -/
theorem c3_message_index_cycles_witness :
    pollLoop notDoneOp 0 [PollResult.ok doneEmptyOp] =
      PollOutcome.completed doneEmptyOp (1 % LOADING_MESSAGES.length) 1 :=
  (c3_message_index_cycles notDoneOp doneEmptyOp [] rfl (by simp) rfl).1

/-- C3 counterexample: a concrete run of 7 polling iterations over the
6-entry message list ends at message index 1, not 0 as claimed. -/
theorem c3_counterexample :
    pollLoop notDoneOp 0
        (List.replicate 6 (PollResult.ok notDoneOp) ++ [PollResult.ok doneEmptyOp]) =
      PollOutcome.completed doneEmptyOp 1 7 ∧ (1 : Nat) ≠ 0 :=
  ⟨by rfl, by decide⟩

/-- C4: when a status re-request throws, the poll loop rethrows that same
failure at once: for every continuation of the trace the outcome is the
same transport error, no further iteration is consumed, and the error is
not transformed. -/
theorem c4_transport_failure_propagates (op0 : Operation) (idx : Nat)
    (pre : List Operation) (e : String) (rest : List PollResult)
    (h0 : op0.done = false) (hpre : ∀ o ∈ pre, o.done = false) :
    pollLoop op0 idx (pre.map PollResult.ok ++ PollResult.fail e :: rest) =
      PollOutcome.transportError e (pre.length + 1) :=
  pollLoop_fail_after pre op0 idx e rest h0 hpre

/-- Witness for C4 at a concrete mid-poll transport failure. -/
theorem c4_transport_failure_propagates_witness :
    pollLoop notDoneOp 0
        [PollResult.fail "network down", PollResult.ok doneEmptyOp] =
      PollOutcome.transportError "network down" 1 :=
  c4_transport_failure_propagates notDoneOp 0 [] "network down"
    [PollResult.ok doneEmptyOp] rfl (by simp)

/-- Helper: an absent or empty generatedVideos list has no first entry. -/
theorem firstGeneratedVideo_of_missing (response : Option OperationResponse)
    (h : generatedVideosMissing response = true) :
    firstGeneratedVideo response = none := by
  cases response with
  | none => rfl
  | some r =>
    cases hl : r.generatedVideos with
    | none => simp [firstGeneratedVideo, hl]
    | some l =>
      simp [generatedVideosMissing, hl] at h
      simp [firstGeneratedVideo, hl, h]

/-- C2: the resolver realises the ordered five-way classification with
first match winning — its outcome tag always equals the tag computed by
testing, in order, locator, filter reason, top-level error, empty list,
with malformed response as the default; an absent or empty generated-video
list with a falsy top-level error yields the EmptyResult error; a truthy
top-level error with no locator and no filter reason yields the
UpstreamError carrying that message. Totality of the resolver gives
exactly one outcome per completed operation. -/
theorem c2_five_way_classification (op : Operation) :
    outcomeTag (resolveOperation op) = specFiveWayTag op ∧
    (generatedVideosMissing op.response = true →
      strTruthy (topErrorMessage op.response) = false →
      resolveOperation op = ResolveOutcome.emptyResult EMPTY_RESULT_MSG) ∧
    (∀ m, strTruthy (videoUriOf (firstGeneratedVideo op.response)) = false →
      strTruthy (filterReasonOf (firstGeneratedVideo op.response)) = false →
      topErrorMessage op.response = some m → m ≠ "" →
      resolveOperation op =
        ResolveOutcome.upstreamError ("Video generation failed: " ++ m)) := by
  refine ⟨?_, ?_, ?_⟩
  · simp only [resolveOperation, specFiveWayTag]
    split_ifs <;> rfl
  · intro hmiss herr
    have hfirst := firstGeneratedVideo_of_missing op.response hmiss
    have hA : strTruthy (videoUriOf (firstGeneratedVideo op.response)) = false := by
      rw [hfirst]; rfl
    have hB : strTruthy (filterReasonOf (firstGeneratedVideo op.response)) = false := by
      rw [hfirst]; rfl
    simp [resolveOperation, hA, hB, herr, hmiss]
  · intro m h1 h2 h3 hm
    have hemp : m.isEmpty = false := by
      cases h : m.isEmpty with
      | false => rfl
      | true => exact absurd ((String.isEmpty_iff m).mp h) hm
    have hC : strTruthy (topErrorMessage op.response) = true := by
      rw [h3]; simp [strTruthy, hemp]
    have hD : (topErrorMessage op.response).getD "" = m := by
      rw [h3]; rfl
    simp [resolveOperation, h1, h2, hC, hD]

/-- Witness for C2 at a concrete empty-list operation and a concrete
top-level-error operation. -/
theorem c2_five_way_classification_witness :
    resolveOperation doneEmptyOp = ResolveOutcome.emptyResult EMPTY_RESULT_MSG ∧
    resolveOperation errOp =
      ResolveOutcome.upstreamError ("Video generation failed: " ++ "quota exceeded") :=
  ⟨(c2_five_way_classification doneEmptyOp).2.1 rfl rfl,
   (c2_five_way_classification errOp).2.2 "quota exceeded" rfl rfl rfl
     (by decide)⟩

/-- C5: a completed operation whose first generated-video entry carries a
truthy filter reason and no truthy locator resolves to the SafetyFiltered
error carrying that reason and the advice to try a different prompt, and
the result fetch is never issued (zero fetches). -/
theorem c5_safety_filtered (op : Operation) (resp : OperationResponse)
    (g : GeneratedVideo) (v : Video) (tail : List GeneratedVideo)
    (r apiKey : String) (fetchResp : String → FetchResponse)
    (hresp : op.response = some resp)
    (hgv : resp.generatedVideos = some (g :: tail))
    (hv : g.video = some v)
    (hr : v.filterReason = some r) (hr0 : r ≠ "")
    (hu : strTruthy v.uri = false) :
    resolveOperation op =
      ResolveOutcome.safetyFiltered
        ("Video was filtered by safety policy: " ++ r
          ++ ". Try a different prompt.") ∧
    finishGenerate op apiKey fetchResp =
      (GenerateResult.genFailure
        (ResolveOutcome.safetyFiltered
          ("Video was filtered by safety policy: " ++ r
            ++ ". Try a different prompt.")), 0) := by
  have h1 : firstGeneratedVideo op.response = some g := by
    simp [firstGeneratedVideo, hresp, hgv]
  have hAeq : videoUriOf (firstGeneratedVideo op.response) = v.uri := by
    rw [h1]; simp [videoUriOf, hv]
  have hBeq : filterReasonOf (firstGeneratedVideo op.response) = some r := by
    rw [h1]; simp [filterReasonOf, hv, hr]
  have hemp : r.isEmpty = false := by
    cases h : r.isEmpty with
    | false => rfl
    | true => exact absurd ((String.isEmpty_iff r).mp h) hr0
  have hA : strTruthy (videoUriOf (firstGeneratedVideo op.response)) = false := by
    rw [hAeq]; exact hu
  have hB : strTruthy (filterReasonOf (firstGeneratedVideo op.response)) = true := by
    rw [hBeq]; simp [strTruthy, hemp]
  have hBd : (filterReasonOf (firstGeneratedVideo op.response)).getD "" = r := by
    rw [hBeq]; rfl
  have hres : resolveOperation op =
      ResolveOutcome.safetyFiltered
        ("Video was filtered by safety policy: " ++ r
          ++ ". Try a different prompt.") := by
    simp [resolveOperation, hA, hB, hBd]
  refine ⟨hres, ?_⟩
  unfold finishGenerate
  rw [hres]

/-- Witness for C5 at a concrete filtered operation. -/
theorem c5_safety_filtered_witness :
    resolveOperation filteredOp =
      ResolveOutcome.safetyFiltered
        ("Video was filtered by safety policy: " ++ "PROHIBITED_CONTENT"
          ++ ". Try a different prompt.") ∧
    finishGenerate filteredOp "k" (fun _ => ⟨true, "OK", "blob:x"⟩) =
      (GenerateResult.genFailure
        (ResolveOutcome.safetyFiltered
          ("Video was filtered by safety policy: " ++ "PROHIBITED_CONTENT"
            ++ ". Try a different prompt.")), 0) :=
  c5_safety_filtered filteredOp ⟨some [⟨some ⟨none, some "PROHIBITED_CONTENT"⟩⟩], none⟩
    ⟨some ⟨none, some "PROHIBITED_CONTENT"⟩⟩ ⟨none, some "PROHIBITED_CONTENT"⟩
    [] "PROHIBITED_CONTENT" "k" (fun _ => ⟨true, "OK", "blob:x"⟩)
    rfl rfl rfl rfl (by decide) rfl

/-- C6: after a successful resolution, a non-ok fetch response makes
generateVideo fail with the download-failure error carrying the status
text, an outcome distinct from every generation-failure classification;
an ok response converts the body to the local object URL and returns it. -/
theorem c6_download_failure (op : Operation) (link apiKey : String)
    (fetchResp : String → FetchResponse)
    (hs : resolveOperation op = ResolveOutcome.success link) :
    ((fetchResp (link ++ "&key=" ++ apiKey)).ok = false →
        finishGenerate op apiKey fetchResp =
          (GenerateResult.downloadFailure
            ("Failed to download video: "
              ++ (fetchResp (link ++ "&key=" ++ apiKey)).statusText), 1)) ∧
    ((fetchResp (link ++ "&key=" ++ apiKey)).ok = true →
        finishGenerate op apiKey fetchResp =
          (GenerateResult.videoUrl
            (fetchResp (link ++ "&key=" ++ apiKey)).blobUrl, 1)) ∧
    (∀ msg e, GenerateResult.downloadFailure msg ≠ GenerateResult.genFailure e) := by
  refine ⟨?_, ?_, ?_⟩
  · intro hok
    unfold finishGenerate
    rw [hs]
    simp [hok]
  · intro hok
    unfold finishGenerate
    rw [hs]
    simp [hok]
  · intro msg e
    simp

/-- Witness for C6 at a concrete successful operation with a failing and a
succeeding fetch. -/
theorem c6_download_failure_witness :
    finishGenerate successOp "k" (fun _ => ⟨false, "Not Found", ""⟩) =
      (GenerateResult.downloadFailure
        ("Failed to download video: " ++ "Not Found"), 1) ∧
    finishGenerate successOp "k" (fun _ => ⟨true, "OK", "blob:video1"⟩) =
      (GenerateResult.videoUrl "blob:video1", 1) :=
  ⟨(c6_download_failure successOp "https://video.example/file.mp4" "k"
      (fun _ => ⟨false, "Not Found", ""⟩) rfl).1 rfl,
   (c6_download_failure successOp "https://video.example/file.mp4" "k"
      (fun _ => ⟨true, "OK", "blob:video1"⟩) rfl).2.1 rfl⟩

/-- C9: result resolution is a pure function of the completed operation's
final response payload — two operations with the same response resolve to
the same outcome, so re-resolving can never change the classification. -/
theorem c9_resolution_pure (op op2 : Operation)
    (h : op.response = op2.response) :
    resolveOperation op = resolveOperation op2 := by
  unfold resolveOperation
  rw [h]

/-- Witness for C9 at two concrete operations differing only in name. -/
theorem c9_resolution_pure_witness :
    resolveOperation ⟨"operations/a", true, some ⟨some [], none⟩⟩ =
      resolveOperation ⟨"operations/b", true, some ⟨some [], none⟩⟩ :=
  c9_resolution_pure ⟨"operations/a", true, some ⟨some [], none⟩⟩
    ⟨"operations/b", true, some ⟨some [], none⟩⟩ rfl

/-- Helper: every reachable form state holds at most 3 selected files. -/
theorem reachable_le_three {s : FormState} (hs : Reachable s) :
    s.imageFiles.length ≤ 3 := by
  induction hs with
  | init => simp [initialFormState]
  | @add s files _ ih =>
    unfold handleFileChange
    by_cases h1 : files.length = 0
    · simpa [h1] using ih
    · by_cases h2 : 3 < s.imageFiles.length + files.length
      · simpa [h1, h2] using ih
      · cases hfind : files.find? (fun f => decide (MAX_FILE_SIZE < f.size)) with
        | some f => simpa [h1, h2, hfind] using ih
        | none =>
          simp [h1, h2, hfind]
          omega
  | @remove s i _ ih =>
    simp only [handleRemoveImage]
    exact le_trans (List.length_eraseIdx_le _ _) ih
  | @submit s prompt ar _ ih =>
    unfold handleSubmit
    split_ifs <;> simpa using ih

/-- C7: in every reachable form state at most 3 files are selected; a
non-empty file selection that would bring the count above 3 is refused
with the validation error and leaves the selection unchanged; submitting
with no selected file sets the validation error and never calls
onGenerate; and whenever onGenerate is called, it receives between 1 and 3
images — so generateVideo is only reached with 1 to 3 images. -/
theorem c7_caller_validation (s : FormState) (hs : Reachable s) :
    s.imageFiles.length ≤ 3 ∧
    (∀ files : List FormFile, files.length ≠ 0 →
        3 < s.imageFiles.length + files.length →
        (handleFileChange s files).imageFiles = s.imageFiles ∧
        (handleFileChange s files).error =
          some "You can upload a maximum of 3 images.") ∧
    (∀ prompt ar, s.imageFiles.length = 0 →
        (handleSubmit s prompt ar).1 = none ∧
        (handleSubmit s prompt ar).2.error =
          some "Please provide at least one image and a prompt.") ∧
    (∀ prompt ar imgs rest,
        (handleSubmit s prompt ar).1 = some (imgs, rest) →
        1 ≤ imgs.length ∧ imgs.length ≤ 3) := by
  refine ⟨reachable_le_three hs, ?_, ?_, ?_⟩
  · intro files hne hover
    constructor <;> simp [handleFileChange, hne, hover]
  · intro prompt ar h0
    constructor <;> simp [handleSubmit, h0]
  · intro prompt ar imgs rest h
    unfold handleSubmit at h
    by_cases hc : s.imageFiles.length = 0 ∨ prompt.isEmpty = true
    · rw [if_pos hc] at h
      simp at h
    · rw [if_neg hc] at h
      replace h : some (s.imageFiles.map (fun f => f.part), prompt, ar) =
          some (imgs, rest) := h
      have himgs : s.imageFiles.map (fun f => f.part) = imgs := by
        injection h with h1
        exact congrArg (fun q => q.1) h1
      have hlen : s.imageFiles.length ≠ 0 := fun h0 => hc (Or.inl h0)
      rw [← himgs]
      constructor
      · simp only [List.length_map]
        omega
      · simp only [List.length_map]
        exact reachable_le_three hs

/-- Witness for C7 at the initial form state. -/
theorem c7_caller_validation_witness :
    (handleFileChange initialFormState
        (List.replicate 4 smallFile)).imageFiles = [] ∧
    (handleSubmit initialFormState "p" Aspect.a169).1 = none :=
  ⟨by
    have h := (c7_caller_validation initialFormState Reachable.init).2.1
      (List.replicate 4 smallFile) (by decide) (by decide)
    exact h.1,
   ((c7_caller_validation initialFormState Reachable.init).2.2.1 "p"
      Aspect.a169 rfl).1⟩

/-- C8 counterexample: a POST request with no password while both server
variables are absent is answered with status 400, not the configuration
error 500 the claim requires for every request with absent configuration. -/
theorem c8_counterexample :
    handler ⟨none, none⟩ ⟨"POST", none⟩ =
      (400, ResBody.err "Password is required") ∧ (400 : Nat) ≠ 500 :=
  ⟨rfl, by decide⟩

/-- C8 (amended): password validation precedes the configuration check.
For every POST request carrying a non-empty string password: absent or
empty ACCESS_PASSWORD or GEMINI_API_KEY yields 500 with the configuration
error; otherwise a password differing from the server secret yields 401;
otherwise 200 with the server-held API key. A missing, non-string or
empty password yields 400. The handler is a pure function of environment
and request, so no outcome modifies state. -/
theorem c8_password_endpoint (env : Env) (req : VercelRequest)
    (hm : req.method = "POST") :
    (∀ pw : String, req.password = some (BodyValue.str pw) → pw ≠ "" →
      ((strTruthy env.ACCESS_PASSWORD && strTruthy env.GEMINI_API_KEY) = false →
          handler env req = (500, ResBody.err CONFIG_ERR_MSG)) ∧
      ((strTruthy env.ACCESS_PASSWORD && strTruthy env.GEMINI_API_KEY) = true →
          (pw ≠ env.ACCESS_PASSWORD.getD "" →
              handler env req = (401, ResBody.err "Invalid password")) ∧
          (pw = env.ACCESS_PASSWORD.getD "" →
              handler env req = (200, ResBody.key (env.GEMINI_API_KEY.getD ""))))) ∧
    (req.password = none ∨ (∃ b, req.password = some (BodyValue.nonString b)) ∨
        req.password = some (BodyValue.str "") →
      handler env req = (400, ResBody.err "Password is required")) := by
  constructor
  · intro pw hpw hne
    have hemp : pw.isEmpty = false := by
      cases h : pw.isEmpty with
      | false => rfl
      | true => exact absurd ((String.isEmpty_iff pw).mp h) hne
    refine ⟨fun hcfg => ?_, fun hcfg => ⟨fun hne2 => ?_, fun heq => ?_⟩⟩
    · simp [handler, hm, hpw, hemp, hcfg]
    · simp [handler, hm, hpw, hemp, hcfg, hne2]
    · have hemp2 : (env.ACCESS_PASSWORD.getD "").isEmpty = false := by
        rw [← heq]; exact hemp
      simp [handler, hm, hpw, hemp2, hcfg, heq]
  · intro h
    have he : "".isEmpty = true := rfl
    rcases h with h | ⟨b, h⟩ | h <;> simp [handler, hm, h, he]

/-- Witness for C8 at a concrete configured environment and matching
password. -/
theorem c8_password_endpoint_witness :
    handler ⟨some "secret", some "KEY123"⟩
        ⟨"POST", some (BodyValue.str "secret")⟩ =
      (200, ResBody.key "KEY123") :=
  (((c8_password_endpoint ⟨some "secret", some "KEY123"⟩
      ⟨"POST", some (BodyValue.str "secret")⟩ rfl).1 "secret" rfl
      (by decide)).2 rfl).2 rfl

end AIVideoGen
